import Mathlib

/-!
Verification of the HackMIT power-grid simulation and PPO training core.

This file gives a shallow embedding of the parts of the repository that the
spec's claims are about, and settles each claim with a theorem.

Modelling conventions:
* Python floats are modelled exactly, as `ℚ` where the embedded code is pure
  arithmetic (battery, GAE, rollout buffer, price, grid bookkeeping) and as
  `ℝ` where it is transcendental (`math.sin` in `Branch.get_transmission`,
  the sample standard deviation in `PPOContinuous.compute_advantages`).
* Fallible code is modelled with `Except PyError`.  Five cross-module slips
  in the source make several operations raise at runtime; each is modelled
  as the error the method actually raises, at the point where the method
  reaches it:
  (1) `PowerGrid.remove_connection` does not exist, although
      `PowerGrid.remove_node`, `server.py` and `driver.py` call it, so those
      calls raise `AttributeError`;
  (2) `PowerGrid.calculate_electricity_price` and the reward loop of
      `PowerGrid.time_step` iterate `for node in self.nodes:` over the dict
      KEYS (strings) and then read `node.agent`, raising `AttributeError`
      on every non-empty grid (the node-stepping loop six lines later
      correctly iterates `self.nodes.values()`);
  (3) `PowerGrid` constructs `Node(agent, node_id, inertia, friction, dt,
      target_hz)` while `Node.__init__` has the signature
      `(index, inertia, friction, dt, target_hz, ...)`, so the attribute
      `node.inertia` actually receives the node id (a string) and
      `remove_node`'s `self.total_inertia -= node.inertia` raises
      `TypeError`;
  (4) every agent subclass calls `super().__init__(agent_id, cost_function)`
      (or passes `cost_function` as a keyword) against
      `BaseAgent.__init__(self, agent_id, training_steps, state_dim)`, so
      `PowerGrid._create_agent` raises `TypeError` for every node type:
      `PowerGrid.__init__` never completes for a network with at least one
      node, and `add_node` with a present id raises before any mutation;
  (5) `BatteryAgent.act` (like the other agents' `act`) calls
      `self.save_action(action)`, and `save_action` is defined nowhere in
      the tree, so every call raises `AttributeError` before the
      charge/discharge logic runs.
  Methods whose bodies are reachable and pure (`Node.time_step` with the
  injection as a parameter, `Branch.get_transmission`, `compute_gae`,
  `compute_advantages`, `RolloutBuffer`, `add_connection`) are modelled
  numerically; methods that raise before their interesting code are
  modelled as the raise, with the unreachable remainder omitted.
-/

/-! ## Branch: `src/backend/environment/Branch.py`

`Branch.get_transmission` reads the two endpoint nodes' `offset` attributes
and returns `transmission_factor * math.sin(offset1 - offset0)` clamped by
`max(-capacity, min(transmission, capacity))`.  `branchFlow` takes the two
offsets as arguments. -/

noncomputable def branchFlow (offset0 offset1 capacity tf : ℝ) : ℝ :=
  max (-capacity) (min (tf * Real.sin (offset1 - offset0)) capacity)

/-- Clamping commutes with negation when the clamp interval is symmetric. -/
theorem clamp_neg_of_nonneg (c x : ℝ) (hc : 0 ≤ c) :
    max (-c) (min (-x) c) = -(max (-c) (min x c)) := by
  rw [max_def, max_def, min_def, min_def]
  split_ifs <;> linarith

/-- C5: for every branch with capacity > 0, `get_transmission()` returns
`transmission_factor · sin(phase(node1) − phase(node0))` clamped to
`[-capacity, +capacity]`, hence `|get_transmission()| ≤ capacity`; and in
the scenario capacity = 50, transmission_factor = 1.0, phases 0 and π/2 the
result is 1.0. -/
theorem C5_branch_flow_clamped_and_bounded :
    (∀ o0 o1 cap tf : ℝ, 0 < cap →
      branchFlow o0 o1 cap tf = max (-cap) (min (tf * Real.sin (o1 - o0)) cap) ∧
      |branchFlow o0 o1 cap tf| ≤ cap) ∧
    branchFlow 0 (Real.pi / 2) 50 1 = 1 := by
  constructor
  · intro o0 o1 cap tf hcap
    refine ⟨rfl, abs_le.mpr ⟨le_max_left _ _, max_le (by linarith) (min_le_right _ _)⟩⟩
  · unfold branchFlow
    rw [sub_zero, Real.sin_pi_div_two]
    norm_num

/-- C5 witness: the general bound applied at the spec's concrete scenario. -/
theorem C5_branch_flow_clamped_and_bounded_witness :
    (0:ℝ) < 50 ∧ |branchFlow 0 (Real.pi / 2) 50 1| ≤ 50 :=
  ⟨by norm_num,
   (C5_branch_flow_clamped_and_bounded.1 0 (Real.pi / 2) 50 1 (by norm_num)).2⟩

/-- C10: swapping the two endpoint nodes of a branch negates the flow,
because the sinusoidal coupling is odd in the phase difference and the
clamp interval `[-capacity, capacity]` is symmetric. -/
theorem C10_branch_flow_antisymmetric :
    ∀ o0 o1 cap tf : ℝ, 0 < cap →
      branchFlow o0 o1 cap tf = -branchFlow o1 o0 cap tf := by
  intro o0 o1 cap tf hcap
  unfold branchFlow
  have hs : Real.sin (o1 - o0) = -Real.sin (o0 - o1) := by
    rw [← Real.sin_neg, neg_sub]
  rw [hs, mul_neg, clamp_neg_of_nonneg cap (tf * Real.sin (o0 - o1)) (le_of_lt hcap)]

/-- C10 witness: endpoint reversal at the concrete scenario branch. -/
theorem C10_branch_flow_antisymmetric_witness :
    (0:ℝ) < 50 ∧ branchFlow 0 (Real.pi / 2) 50 1 = -branchFlow (Real.pi / 2) 0 50 1 :=
  ⟨by norm_num, C10_branch_flow_antisymmetric 0 (Real.pi / 2) 50 1 (by norm_num)⟩

/-- Python runtime errors raised by the modelled methods. -/
inductive PyError where
  | attributeError
  | typeError
deriving DecidableEq

/-! ## Node and grid dynamics: `src/backend/environment/Node.py`,
`src/backend/environment/PowerGrid.py`

`Node.time_step` (Node.py lines 69–81), in its default branch
(`self.ppo_agent is None`), obtains `d2offset = self.agent.act(state)` and
runs `self.doffset += d2offset * self.dt; self.offset += self.doffset *
self.dt`.  The agent's returned power injection is the `d2offset`
argument here.  Branches for the physics model are endpoint indices into
the grid's node list. -/

structure Node where
  inertia : ℝ
  friction : ℝ
  dt : ℝ
  offset : ℝ
  doffset : ℝ

instance : Inhabited Node := ⟨⟨0, 0, 0, 0, 0⟩⟩

def Node.time_step (n : Node) (d2offset : ℝ) : Node :=
  let doffset' := n.doffset + d2offset * n.dt
  { n with doffset := doffset', offset := n.offset + doffset' * n.dt }

structure GridBranch where
  n0 : ℕ
  n1 : ℕ
  capacity : ℝ
  tf : ℝ

structure PowerGrid where
  nodes : List Node
  branches : List GridBranch
  grid_frequency : ℝ
  total_inertia : ℝ

/-- Model of `Branch.get_transmission` on a branch living in a grid: reads the two
endpoint nodes' offsets. -/
noncomputable def branchTransmission (g : PowerGrid) (b : GridBranch) : ℝ :=
  branchFlow (g.nodes.getD b.n0 default).offset (g.nodes.getD b.n1 default).offset
    b.capacity b.tf

/-- The connection list of node `i`: `PowerGrid.__init__` appends every
created branch to `self.branches[from_id]` and to `self.branches[to_id]`
and hands that list to `Node.add_connections` (a self-loop is appended
twice, as in the source). -/
def node_connections (g : PowerGrid) (i : ℕ) : List GridBranch :=
  g.branches.filter (fun b => b.n0 = i) ++ g.branches.filter (fun b => b.n1 = i)

/-- Model of `Node.get_transmission` (Node.py lines 97–104): sum over the node's
connection list, `+` when `branch.node0` is this node, `-` otherwise. -/
noncomputable def get_transmission (g : PowerGrid) (i : ℕ) : ℝ :=
  ((node_connections g i).map
    (fun b => if b.n0 = i then branchTransmission g b else -branchTransmission g b)).sum

/-- Model of `PowerGrid.time_step` (PowerGrid.py lines 108–142): the first
statement, `current_price = self.calculate_electricity_price()`, iterates
the node-dict KEYS and reads `node.agent`, raising `AttributeError` on
every non-empty grid (header slip 2) before any node is stepped.  The
node-stepping loop, the pertubation accumulation (printed, discarded, and
never divided by `total_inertia`; it would itself raise `TypeError`, since
`node.inertia` holds the id string, header slip 3) and the reward loop are
unreachable, and `self.grid_frequency` is assigned nowhere in the method.
Only a call on the empty grid completes: every loop is vacuous, the
pertubation variable stays 0 and the grid, its frequency included, is
returned unchanged. -/
noncomputable def PowerGrid.time_step (g : PowerGrid) :
    Except PyError (PowerGrid × ℝ) :=
  if g.nodes.isEmpty then .ok (g, 0) else .error .attributeError

theorem filter_n0_map_sum (i : ℕ) (t : GridBranch → ℝ) (l : List GridBranch) :
    ((l.filter (fun b => b.n0 = i)).map
        (fun b => if b.n0 = i then t b else -t b)).sum =
      (l.map (fun b => if b.n0 = i then t b else 0)).sum := by
  induction l with
  | nil => simp
  | cons b l ih =>
    by_cases hb : b.n0 = i <;> simp [List.filter_cons, hb, ih]

theorem filter_n1_map_sum (i : ℕ) (t : GridBranch → ℝ) (l : List GridBranch)
    (h : ∀ b ∈ l, b.n0 ≠ b.n1) :
    ((l.filter (fun b => b.n1 = i)).map
        (fun b => if b.n0 = i then t b else -t b)).sum =
      (l.map (fun b => if b.n1 = i then -t b else 0)).sum := by
  induction l with
  | nil => simp
  | cons b l ih =>
    have hb := h b (List.mem_cons_self b l)
    have hl : ∀ x ∈ l, x.n0 ≠ x.n1 := fun x hx => h x (List.mem_cons_of_mem b hx)
    by_cases hb1 : b.n1 = i
    · have hb0 : ¬ b.n0 = i := fun hc => hb (hc.trans hb1.symm)
      simp [List.filter_cons, hb1, hb0, ih hl]
    · simp [List.filter_cons, hb1, ih hl]

theorem sum_map_add_pointwise (f g : GridBranch → ℝ) (l : List GridBranch) :
    (l.map f).sum + (l.map g).sum = (l.map (fun b => f b + g b)).sum := by
  induction l with
  | nil => simp
  | cons b l ih => simp only [List.map_cons, List.sum_cons, ← ih]; ring

/-- On a grid without self-loop branches, the node's incident signed sum
equals a signed sum over the whole branch list. -/
theorem get_transmission_eq_signed_sum (g : PowerGrid) (i : ℕ)
    (h : ∀ b ∈ g.branches, b.n0 ≠ b.n1) :
    get_transmission g i =
      (g.branches.map (fun b =>
        ((if b.n0 = i then (1:ℝ) else 0) - (if b.n1 = i then (1:ℝ) else 0)) *
          branchTransmission g b)).sum := by
  unfold get_transmission node_connections
  rw [List.map_append, List.sum_append,
    filter_n0_map_sum i (branchTransmission g) g.branches,
    filter_n1_map_sum i (branchTransmission g) g.branches h,
    sum_map_add_pointwise]
  apply congrArg List.sum
  apply List.map_congr_left
  intro b hb
  by_cases h0 : b.n0 = i <;> by_cases h1 : b.n1 = i
  · exact absurd (h0.trans h1.symm) (h b hb)
  · simp [h0, h1]
    try ring
  · simp [h0, h1]
    try ring
  · simp [h0, h1]

/-- C1 (amended): one call to `Node.time_step` with the agent's power
injection `d2offset` updates `phase_velocity += d2offset·dt` and
`phase_offset += phase_velocity·dt`; the friction coefficient and the
incident branches do not enter the update and the offset is not wrapped
into [0, 2π).  The claim's true part stands: `Node.get_transmission` is
the direction-sign-corrected sum over the node's incident branches (stated
here, for grids without self-loops, as a signed sum over all branches). -/
theorem C1_node_time_step_amended :
    (∀ (n : Node) (d2offset : ℝ),
      (n.time_step d2offset).doffset = n.doffset + d2offset * n.dt ∧
      (n.time_step d2offset).offset = n.offset + n.doffset * n.dt + d2offset * n.dt ^ 2 ∧
      (n.time_step d2offset).friction = n.friction ∧
      (n.time_step d2offset).inertia = n.inertia) ∧
    (∀ (g : PowerGrid) (i : ℕ), (∀ b ∈ g.branches, b.n0 ≠ b.n1) →
      get_transmission g i =
        (g.branches.map (fun b =>
          ((if b.n0 = i then (1:ℝ) else 0) - (if b.n1 = i then (1:ℝ) else 0)) *
            branchTransmission g b)).sum) := by
  constructor
  · intro n d2
    refine ⟨rfl, ?_, rfl, rfl⟩
    show n.offset + (n.doffset + d2 * n.dt) * n.dt =
      n.offset + n.doffset * n.dt + d2 * n.dt ^ 2
    ring
  · exact get_transmission_eq_signed_sum

/-- C1 counterexample: for a node with friction 1, dt 1, phase_velocity 1,
offset 6, zero power injection and no incident branches, the claim
predicts new phase_velocity `1 + (0 − 1·1 + 0)·1 = 0`, but `time_step`
produces 1 — friction never enters; and the new offset is 7, which is not
wrapped into [0, 2π). -/
theorem C1_node_time_step_counterexample :
    (Node.time_step ⟨1, 1, 1, 6, 1⟩ 0).doffset = 1 ∧
    ((1:ℝ) ≠ 1 + (0 - 1 * 1 + 0) * 1) ∧
    (Node.time_step ⟨1, 1, 1, 6, 1⟩ 0).offset = 7 ∧
    ¬ ((Node.time_step ⟨1, 1, 1, 6, 1⟩ 0).offset < 2 * Real.pi) := by
  have h1 : (Node.time_step ⟨1, 1, 1, 6, 1⟩ 0).doffset = 1 := by
    show (1:ℝ) + 0 * 1 = 1
    norm_num
  have h2 : (Node.time_step ⟨1, 1, 1, 6, 1⟩ 0).offset = 7 := by
    show (6:ℝ) + (1 + 0 * 1) * 1 = 7
    norm_num
  refine ⟨h1, by norm_num, h2, ?_⟩
  rw [h2]
  intro hc
  have hpi := Real.pi_lt_d2
  linarith

/-- Two-node example grid: inertias 1 and 3 (total inertia 4), phases 0
and π/2, one branch of capacity 50 and transmission factor 1 between
them. -/
noncomputable def exGrid2 : PowerGrid :=
  { nodes := [⟨1, 0, 1, 0, 0⟩, ⟨3, 0, 1, Real.pi / 2, 0⟩],
    branches := [⟨0, 1, 50, 1⟩],
    grid_frequency := 60,
    total_inertia := 4 }

/-- C1 witness: the signed-sum form of `Node.get_transmission` at node 0
of the concrete two-node grid. -/
theorem C1_node_time_step_amended_witness :
    get_transmission exGrid2 0 =
      (exGrid2.branches.map (fun b =>
        ((if b.n0 = 0 then (1:ℝ) else 0) - (if b.n1 = 0 then (1:ℝ) else 0)) *
          branchTransmission exGrid2 b)).sum :=
  C1_node_time_step_amended.2 exGrid2 0 (by simp [exGrid2])

/-- C2: `PowerGrid.time_step` raises `AttributeError` in its first
statement on every non-empty grid — here the concrete two-node grid — so
it never computes any perturbation, divided by `total_inertia` or not, and
never updates `grid_frequency`; the only completing call is on the empty
grid, which returns pertubation 0 and the grid, frequency included,
unchanged. -/
theorem C2_grid_time_step_code_bug :
    PowerGrid.time_step exGrid2 = Except.error PyError.attributeError ∧
    PowerGrid.time_step ⟨[], [], 60, 0⟩ = Except.ok (⟨[], [], 60, 0⟩, 0) ∧
    (⟨[], [], 60, 0⟩ : PowerGrid).grid_frequency = 60 :=
  ⟨rfl, rfl, rfl⟩

/-! ## BatteryAgent: `src/backend/agents/BatteryAgent.py`

`BatteryAgent.act` (lines 18–50): line 30 clamps the action to [-1, 1] and
line 31 assigns `self.last_action`, but line 32 calls
`self.save_action(action)` and no class in the tree defines `save_action`
(`BaseAgent` is the `(agent_id, training_steps, state_dim)` revision), so
every call raises `AttributeError` before the charge/discharge/soc logic
of lines 34–48 can run.  A `BatteryAgent` cannot even be constructed:
`BatteryAgent.__init__` line 7 calls
`super().__init__(agent_id, cost_function)` against
`BaseAgent.__init__(self, agent_id, training_steps, state_dim)`, raising
`TypeError` (header slip 4).  `act` is modelled on a given battery state
as the post-call state (only `last_action` is mutated before the raise;
`soc` and `delta_e` are untouched) paired with the raised error in place
of the returned `delta_e`. -/

structure BatteryAgent where
  capacity : ℚ
  charge_rate : ℚ
  efficiency : ℚ
  soc : ℚ
  last_action : ℚ
  delta_e : ℚ

def BatteryAgent.act (b : BatteryAgent) (action : ℚ) : BatteryAgent × Except PyError ℚ :=
  let a := max (-1) (min 1 action)
  ({ b with last_action := a }, .error .attributeError)

/-- C4: at the claim's own scenario — Battery(capacity=100,
charge_rate=50, efficiency=0.9, soc=0.5), action=+1 — `act` raises
`AttributeError` at `self.save_action(action)` instead of returning the
charge energy, and `soc` stays 0.5 rather than becoming the claimed 0.95
(`delta_e` stays 0 rather than 50); the discharging call raises the same
way with `soc` unchanged. -/
theorem C4_battery_act_code_bug :
    ((⟨100, 50, 9/10, 1/2, 0, 0⟩ : BatteryAgent).act 1).2 =
      Except.error PyError.attributeError ∧
    ((⟨100, 50, 9/10, 1/2, 0, 0⟩ : BatteryAgent).act 1).1.soc = 1/2 ∧
    ((⟨100, 50, 9/10, 1/2, 0, 0⟩ : BatteryAgent).act 1).1.delta_e = 0 ∧
    ((⟨100, 50, 9/10, 1/2, 0, 0⟩ : BatteryAgent).act (-1)).2 =
      Except.error PyError.attributeError ∧
    ((⟨100, 50, 9/10, 1/2, 0, 0⟩ : BatteryAgent).act (-1)).1.soc = 1/2 ∧
    ((1:ℚ)/2 ≠ 19/20) :=
  ⟨rfl, rfl, rfl, rfl, rfl, by norm_num⟩

/-! ## GAE: `src/backend/agents/ppo_agent.py` lines 186–203 and
`src/backend/agents/PPO.py` lines 50–89

`PPOAgent.compute_gae(rewards, values, dones)` walks `t` from the end:
`next_value = 0` at the last index, else `values[t+1]`;
`delta = rewards[t] + gamma*next_value*(1-dones[t]) - values[t]`;
`last_advantage = delta + gamma*gae_lambda*(1-dones[t])*last_advantage`;
finally `returns = advantages + values`.  The rollout is modelled as a
list of `(reward, value, done)` triples in time order, the done flag as a
rational (numpy stores it as a float and the code multiplies by
`1 - dones[t]`). -/

def gaeAdvantages (gamma lam : ℚ) : List (ℚ × ℚ × ℚ) → List ℚ
  | [] => []
  | (r, v, d) :: rest =>
    let tail := gaeAdvantages gamma lam rest
    let next_value : ℚ := match rest with | [] => 0 | (_, v', _) :: _ => v'
    let delta := r + gamma * next_value * (1 - d) - v
    (delta + gamma * lam * (1 - d) * tail.headD 0) :: tail

def gaeReturns (gamma lam : ℚ) (l : List (ℚ × ℚ × ℚ)) : List ℚ :=
  List.zipWith (fun a v => a + v) (gaeAdvantages gamma lam l) (l.map (fun x => x.2.1))

theorem gaeAdvantages_length (gamma lam : ℚ) (l : List (ℚ × ℚ × ℚ)) :
    (gaeAdvantages gamma lam l).length = l.length := by
  induction l with
  | nil => rfl
  | cons x rest ih =>
    obtain ⟨r, v, d⟩ := x
    simp [gaeAdvantages, ih]

theorem zipWith_add_getD (A V : List ℚ) (t : ℕ) (hA : t < A.length) (hV : t < V.length) :
    (List.zipWith (fun a v => a + v) A V).getD t 0 = A.getD t 0 + V.getD t 0 := by
  induction A generalizing V t with
  | nil => simp at hA
  | cons a A ih =>
    cases V with
    | nil => simp at hV
    | cons v V =>
      cases t with
      | zero => simp
      | succ t =>
        simp only [List.zipWith_cons_cons, List.getD_cons_succ]
        exact ih V t (by simpa using hA) (by simpa using hV)

theorem getD_map_value (l : List (ℚ × ℚ × ℚ)) (t : ℕ) :
    (l.map (fun x => x.2.1)).getD t 0 = (l.getD t (0, 0, 0)).2.1 := by
  induction l generalizing t with
  | nil => simp
  | cons x rest ih =>
    cases t with
    | zero => simp
    | succ t =>
      simp only [List.map_cons, List.getD_cons_succ]
      exact ih t

theorem gaeAdvantages_pointwise (gamma lam : ℚ) (l : List (ℚ × ℚ × ℚ)) (t : ℕ)
    (ht : t < l.length) :
    (gaeAdvantages gamma lam l).getD t 0 =
      ((l.getD t (0, 0, 0)).1 +
        gamma * (l.getD (t + 1) (0, 0, 0)).2.1 * (1 - (l.getD t (0, 0, 0)).2.2) -
        (l.getD t (0, 0, 0)).2.1) +
      gamma * lam * (1 - (l.getD t (0, 0, 0)).2.2) *
        (gaeAdvantages gamma lam l).getD (t + 1) 0 := by
  induction l generalizing t with
  | nil => simp at ht
  | cons x rest ih =>
    obtain ⟨r, v, d⟩ := x
    cases t with
    | zero =>
      cases rest with
      | nil => simp [gaeAdvantages]
      | cons p rest' =>
        obtain ⟨r', v', d'⟩ := p
        simp [gaeAdvantages]
        try ring
    | succ t =>
      have ht' : t < rest.length := by simpa using ht
      simp only [gaeAdvantages, List.getD_cons_succ]
      exact ih t ht'

theorem gaeReturns_pointwise (gamma lam : ℚ) (l : List (ℚ × ℚ × ℚ)) (t : ℕ)
    (ht : t < l.length) :
    (gaeReturns gamma lam l).getD t 0 =
      (gaeAdvantages gamma lam l).getD t 0 + (l.getD t (0, 0, 0)).2.1 := by
  unfold gaeReturns
  rw [zipWith_add_getD _ _ t (by rw [gaeAdvantages_length]; exact ht)
    (by rw [List.length_map]; exact ht), getD_map_value]

/-! `PPOContinuous.compute_advantages(rewards, values, next_value)` ignores
done flags (`next_non_terminal = 1.0` in both branches), appends
`next_value` to the value list, runs the same backward recursion, computes
`returns = advantages + values[:-1]`, and then NORMALIZES the advantages:
for more than one element it subtracts the mean and, when the sample
standard deviation (torch's unbiased `std`, denominator n−1) exceeds 1e-8,
divides by it; for a single element it returns a zero vector. -/

def ppoAdvRaw (gamma lam : ℝ) : List ℝ → List ℝ → ℝ → List ℝ
  | r :: rs, v :: vs, next_value =>
    let tail := ppoAdvRaw gamma lam rs vs next_value
    let nv : ℝ := match vs with | [] => next_value | v' :: _ => v'
    (r + gamma * nv - v + gamma * lam * tail.headD 0) :: tail
  | _, _, _ => []

noncomputable def listMean (l : List ℝ) : ℝ := l.sum / l.length

noncomputable def listStdTorch (l : List ℝ) : ℝ :=
  Real.sqrt ((l.map (fun x => (x - listMean l) ^ 2)).sum / (l.length - 1))

noncomputable def normalizeAdvantages (l : List ℝ) : List ℝ :=
  if 1 < l.length then
    if 1e-8 < listStdTorch l then l.map (fun x => (x - listMean l) / listStdTorch l)
    else l.map (fun x => x - listMean l)
  else l.map (fun _ => 0)

noncomputable def compute_advantages (gamma lam : ℝ) (rewards values : List ℝ)
    (next_value : ℝ) : List ℝ × List ℝ :=
  (List.zipWith (fun a v => a + v) (ppoAdvRaw gamma lam rewards values next_value) values,
    normalizeAdvantages (ppoAdvRaw gamma lam rewards values next_value))

theorem ppoAdvRaw_scenario :
    ppoAdvRaw (99/100) (19/20) [1, 1] [0, 0] 0 = [3881/2000, 1] := by
  norm_num [ppoAdvRaw]

theorem listMean_scenario : listMean [(3881:ℝ)/2000, 1] = 5881/4000 := by
  norm_num [listMean]

theorem listStdTorch_scenario :
    listStdTorch [(3881:ℝ)/2000, 1] = Real.sqrt 2 * (1881/4000) := by
  unfold listStdTorch
  rw [listMean_scenario]
  have h : ((([(3881:ℝ)/2000, 1].map (fun x => (x - 5881/4000) ^ 2)).sum) /
      (([(3881:ℝ)/2000, 1].length : ℝ) - 1)) = 2 * (1881/4000) ^ 2 := by
    norm_num
  rw [h, Real.sqrt_mul (by norm_num) ((1881/4000) ^ 2),
    Real.sqrt_sq (by norm_num : (0:ℝ) ≤ 1881/4000)]

theorem normalizeAdvantages_scenario :
    normalizeAdvantages [(3881:ℝ)/2000, 1] = [Real.sqrt 2 / 2, -(Real.sqrt 2 / 2)] := by
  have hs2 : Real.sqrt 2 * Real.sqrt 2 = 2 := Real.mul_self_sqrt (by norm_num)
  have hs2pos : 0 < Real.sqrt 2 := Real.sqrt_pos.mpr (by norm_num)
  have hstd : (1e-8:ℝ) < listStdTorch [(3881:ℝ)/2000, 1] := by
    rw [listStdTorch_scenario]
    nlinarith [hs2, hs2pos]
  unfold normalizeAdvantages
  rw [if_pos (by norm_num), if_pos hstd, listMean_scenario, listStdTorch_scenario]
  have hne : Real.sqrt 2 * ((1881:ℝ)/4000) ≠ 0 := by positivity
  simp only [List.map_cons, List.map_nil]
  congr 1
  · rw [div_eq_div_iff hne (by norm_num : (2:ℝ) ≠ 0)]
    nlinarith [hs2]
  · congr 1
    rw [div_eq_iff hne]
    nlinarith [hs2]

/-- C3 counterexample: at the spec scenario (rewards=[1,1], values=[0,0],
γ=0.99, λ=0.95, next_value=0) the advantages produced by
`PPOContinuous.compute_advantages` are the NORMALIZED values
[√2/2, −√2/2], not the closed-form recursion values
[1 + 0.99·0.95, 1]. -/
theorem C3_normalized_advantages_counterexample :
    (compute_advantages (99/100) (19/20) [1, 1] [0, 0] 0).2 ≠
      [1 + (99/100) * (19/20), 1] := by
  have hval : (compute_advantages (99/100) (19/20) [1, 1] [0, 0] 0).2 =
      [Real.sqrt 2 / 2, -(Real.sqrt 2 / 2)] := by
    show normalizeAdvantages (ppoAdvRaw (99/100) (19/20) [1, 1] [0, 0] 0) = _
    rw [ppoAdvRaw_scenario, normalizeAdvantages_scenario]
  rw [hval]
  intro h
  have h2 := congrArg (fun l => l.getD 1 0) h
  simp at h2
  have hs2pos : 0 < Real.sqrt 2 := Real.sqrt_pos.mpr (by norm_num)
  linarith

/-- C3 (amended): `PPOAgent.compute_gae` satisfies the claimed backward
recursion exactly — pointwise, with terminal bootstrap 0 — and its returns
satisfy `return_t = A_t + V(s_t)`; at the spec scenario it produces
advantages = returns = [1 + 0.99·0.95, 1] exactly.
`PPOContinuous.compute_advantages` (which ignores done flags) produces
those same returns, but the advantages it returns are mean/std-NORMALIZED:
at the scenario they are [√2/2, −√2/2] rather than the recursion values. -/
theorem C3_gae_recursion_amended :
    (∀ (gamma lam : ℚ) (l : List (ℚ × ℚ × ℚ)) (t : ℕ), t < l.length →
      ((gaeAdvantages gamma lam l).getD t 0 =
        ((l.getD t (0, 0, 0)).1 +
          gamma * (l.getD (t + 1) (0, 0, 0)).2.1 * (1 - (l.getD t (0, 0, 0)).2.2) -
          (l.getD t (0, 0, 0)).2.1) +
        gamma * lam * (1 - (l.getD t (0, 0, 0)).2.2) *
          (gaeAdvantages gamma lam l).getD (t + 1) 0) ∧
      (gaeReturns gamma lam l).getD t 0 =
        (gaeAdvantages gamma lam l).getD t 0 + (l.getD t (0, 0, 0)).2.1) ∧
    (gaeAdvantages (99/100) (19/20) [(1, 0, 0), (1, 0, 0)] = [1 + (99/100) * (19/20), 1] ∧
     gaeReturns (99/100) (19/20) [(1, 0, 0), (1, 0, 0)] = [1 + (99/100) * (19/20), 1]) ∧
    ((compute_advantages (99/100) (19/20) [1, 1] [0, 0] 0).1 = [1 + (99/100) * (19/20), 1] ∧
     (compute_advantages (99/100) (19/20) [1, 1] [0, 0] 0).2 =
       [Real.sqrt 2 / 2, -(Real.sqrt 2 / 2)]) := by
  refine ⟨fun gamma lam l t ht => ⟨gaeAdvantages_pointwise gamma lam l t ht,
    gaeReturns_pointwise gamma lam l t ht⟩, ⟨?_, ?_⟩, ⟨?_, ?_⟩⟩
  · norm_num [gaeAdvantages]
  · norm_num [gaeReturns, gaeAdvantages]
  · show List.zipWith _ (ppoAdvRaw (99/100) (19/20) [1, 1] [0, 0] 0) [0, 0] = _
    rw [ppoAdvRaw_scenario]
    norm_num
  · show normalizeAdvantages (ppoAdvRaw (99/100) (19/20) [1, 1] [0, 0] 0) = _
    rw [ppoAdvRaw_scenario, normalizeAdvantages_scenario]

/-- C3 witness: the pointwise return identity applied at the scenario
rollout and index 0. -/
theorem C3_gae_recursion_amended_witness :
    (gaeReturns (99/100) (19/20) [(1, 0, 0), (1, 0, 0)]).getD 0 0 =
      (gaeAdvantages (99/100) (19/20) [(1, 0, 0), (1, 0, 0)]).getD 0 0 +
        (([((1:ℚ), (0:ℚ), (0:ℚ)), (1, 0, 0)] : List (ℚ × ℚ × ℚ)).getD 0 (0, 0, 0)).2.1 :=
  (C3_gae_recursion_amended.1 (99/100) (19/20) [(1, 0, 0), (1, 0, 0)] 0 (by norm_num)).2

/-! ## RolloutBuffer: `src/backend/agents/rollout_buffer.py`

Six parallel fixed-size arrays indexed by a pointer.  `add` (lines 25–42)
returns `False` when `ptr >= buffer_size` without touching anything;
otherwise it writes the transition at `ptr`, increments `ptr`, updates
`path_start_idx` on a done flag, and returns `True`.  `get` (lines 44–56)
returns the six prefixes up to `ptr`.  The numpy scalar coercions
(`[action]`, `.item()`, `float(done)`) are modelled by storing the scalar
itself and the done flag as `1`/`0`. -/

structure RolloutBuffer where
  buffer_size : ℕ
  observations : List (List ℚ)
  actions : List ℚ
  rewards : List ℚ
  values : List ℚ
  log_probs : List ℚ
  dones : List ℚ
  ptr : ℕ
  path_start_idx : ℕ
deriving DecidableEq

def RolloutBuffer.add (b : RolloutBuffer) (obs : List ℚ)
    (action reward value log_prob : ℚ) (done : Bool) : Bool × RolloutBuffer :=
  if b.buffer_size ≤ b.ptr then
    (false, b)
  else
    (true,
      { b with
        observations := b.observations.set b.ptr obs,
        actions := b.actions.set b.ptr action,
        rewards := b.rewards.set b.ptr reward,
        values := b.values.set b.ptr value,
        log_probs := b.log_probs.set b.ptr log_prob,
        dones := b.dones.set b.ptr (if done then 1 else 0),
        ptr := b.ptr + 1,
        path_start_idx := if done then b.ptr + 1 else b.path_start_idx })

def RolloutBuffer.get (b : RolloutBuffer) :
    List (List ℚ) × List ℚ × List ℚ × List ℚ × List ℚ × List ℚ :=
  (b.observations.take b.ptr, b.actions.take b.ptr, b.rewards.take b.ptr,
    b.values.take b.ptr, b.log_probs.take b.ptr, b.dones.take b.ptr)

/-- C7: once the write pointer has reached `buffer_size`, every further
`add` returns `False` and leaves the buffer — all stored entries and the
pointer — completely unmodified, so a subsequent `get` still returns
exactly the prefix stored before the failing `add`. -/
theorem C7_rollout_buffer_add_full :
    ∀ (b : RolloutBuffer) (obs : List ℚ) (action reward value log_prob : ℚ) (done : Bool),
      b.buffer_size ≤ b.ptr →
      (b.add obs action reward value log_prob done).1 = false ∧
      (b.add obs action reward value log_prob done).2 = b ∧
      (b.add obs action reward value log_prob done).2.get = b.get := by
  intro b obs action reward value log_prob done hfull
  have h : b.add obs action reward value log_prob done = (false, b) := by
    unfold RolloutBuffer.add
    rw [if_pos hfull]
  rw [h]
  exact ⟨rfl, rfl, rfl⟩

/-- C7 witness: a concrete full buffer (size 2, pointer 2); the failing
`add` leaves it untouched. -/
theorem C7_rollout_buffer_add_full_witness :
    ((⟨2, [[5], [6]], [1, 2], [3, 4], [5, 6], [7, 8], [0, 1], 2, 0⟩ :
        RolloutBuffer).add [9] 9 9 9 9 true).1 = false ∧
    ((⟨2, [[5], [6]], [1, 2], [3, 4], [5, 6], [7, 8], [0, 1], 2, 0⟩ :
        RolloutBuffer).add [9] 9 9 9 9 true).2 =
      ⟨2, [[5], [6]], [1, 2], [3, 4], [5, 6], [7, 8], [0, 1], 2, 0⟩ :=
  ⟨(C7_rollout_buffer_add_full ⟨2, [[5], [6]], [1, 2], [3, 4], [5, 6], [7, 8], [0, 1], 2, 0⟩
      [9] 9 9 9 9 true (by norm_num)).1,
   (C7_rollout_buffer_add_full ⟨2, [[5], [6]], [1, 2], [3, 4], [5, 6], [7, 8], [0, 1], 2, 0⟩
      [9] 9 9 9 9 true (by norm_num)).2.1⟩

/-! ## Structural grid state: `src/backend/environment/PowerGrid.py`

`self.nodes` is an id-keyed dict (insertion-ordered association list with
unique keys), `self.branches` an id-keyed defaultdict of incident branch
lists, `self.total_inertia` a running sum, and `network_dict["simulation"]`
keeps the raw node/connection JSON.  Python dict assignment replaces the
value of an existing key in place and appends a new key at the end;
`dictInsert` mirrors that.  Errors raised by the operations are
`Except.error` values; Python mutates nothing before any of the raises
modelled here, so an error leaves the grid in its pre-call state. -/

structure SNode where
  inertia : ℚ
  friction : ℚ
  delta_e : ℚ
deriving DecidableEq

structure SBranch where
  n0 : String
  n1 : String
  capacity : ℚ
  tf : ℚ
deriving DecidableEq

structure NodeJson where
  id : Option String
  inertia : Option ℚ
  friction : Option ℚ
deriving DecidableEq

structure ConnJson where
  id : String
  fromId : Option String
  toId : Option String
  power : Option ℚ
  tf : Option ℚ
deriving DecidableEq

structure SPowerGrid where
  nodes : List (String × SNode)
  branches : List (String × List SBranch)
  total_inertia : ℚ
  net_nodes : List NodeJson
  net_conns : List ConnJson
deriving DecidableEq

def dictKeys {α : Type} (l : List (String × α)) : List String := l.map Prod.fst

def dictInsert {α : Type} : List (String × α) → String → α → List (String × α)
  | [], k, v => [(k, v)]
  | (k', v') :: rest, k, v =>
    if k' = k then (k, v) :: rest else (k', v') :: dictInsert rest k v

def dictGet? {α : Type} : List (String × α) → String → Option α
  | [], _ => none
  | (k', v') :: rest, k => if k' = k then some v' else dictGet? rest k

def dictAppend (l : List (String × List SBranch)) (k : String) (b : SBranch) :
    List (String × List SBranch) :=
  match dictGet? l k with
  | some bs => dictInsert l k (bs ++ [b])
  | none => dictInsert l k [b]

/-- One node entry consumed by `PowerGrid.__init__`: the JSON id and
optional settings, plus the two `np.random.rand()` draws used when
`inertia`/`friction` are missing, passed explicitly to keep the
constructor a function. -/
structure NodeData where
  id : String
  inertiaOpt : Option ℚ
  frictionOpt : Option ℚ
  rand_inertia : ℚ
  rand_friction : ℚ
deriving DecidableEq

/-- Model of `PowerGrid.__init__` (lines 9–57): for every node entry the
constructor first calls `self._create_agent(settings, node_id)` (line 30),
which raises `TypeError` for every node type — each agent subclass's
`super().__init__(agent_id, cost_function)` mismatches
`BaseAgent.__init__(self, agent_id, training_steps, state_dim)` (header
slip 4) — before any node is stored or any inertia summed.  Construction
therefore completes only for a network with no nodes: the connection loop
then skips every connection (no endpoint id can be live) and the grid
starts empty with `total_inertia = 0`, the raw connection JSON kept in
`network_dict`.  (The unreachable remainder of the loop would store the
node under its id and add its inertia, missing settings replaced by the
`np.random.rand()` draws carried in `NodeData`.) -/
def initGrid (node_data : List NodeData) (conn_data : List ConnJson) :
    Except PyError SPowerGrid :=
  if node_data.isEmpty then
    .ok { nodes := [], branches := [], total_inertia := 0,
          net_nodes := node_data.map (fun nd => ⟨some nd.id, nd.inertiaOpt, nd.frictionOpt⟩),
          net_conns := conn_data }
  else .error .typeError

/-- Model of `PowerGrid.calculate_electricity_price` (lines 84–106) as written: the
loop `for node in self.nodes:` yields the dict KEYS (strings) and then
reads `node.agent`, which raises `AttributeError` on any non-empty grid;
on an empty grid the loop body never runs, `total_supply` stays 0, and the
method returns the fixed high price 150.0. -/
def calculate_electricity_price (g : SPowerGrid) : Except PyError ℚ :=
  if g.nodes.isEmpty then .ok 150 else .error .attributeError

def totalSupply (g : SPowerGrid) : ℚ :=
  (g.nodes.map (fun p => p.2.delta_e)).foldl (fun acc d => if 0 < d then acc + d else acc) 0

def totalDemand (g : SPowerGrid) : ℚ :=
  (g.nodes.map (fun p => p.2.delta_e)).foldl (fun acc d => if 0 < d then acc else acc + |d|) 0

/-- Model of `calculate_electricity_price` with its loop iterating the node VALUES
— the evident intent (the node-stepping loop in `time_step` uses
`self.nodes.values()`): supply sums positive `delta_e`, demand sums
`abs(delta_e)` of the rest; `base_price = 50.0`; when supply > 0,
`price = 50·(0.5 + demand/(supply + 1e-6))` clamped by
`min(200, max(10, price))`; else exactly 150.0. -/
def calculate_electricity_price_values (g : SPowerGrid) : ℚ :=
  if 0 < totalSupply g then
    min 200 (max 10 (50 * (1/2 + totalDemand g / (totalSupply g + 1/1000000))))
  else 150

def gC6empty : SPowerGrid := ⟨[], [], 0, [], []⟩

def gC6consumer : SPowerGrid := ⟨[("a", ⟨1, 1, -10⟩)], [("a", [])], 1, [], []⟩

def gC6mixed : SPowerGrid := ⟨[("p", ⟨1, 1, 100⟩), ("c", ⟨1, 1, -50⟩)], [], 2, [], []⟩

def gC6scarce : SPowerGrid := ⟨[("p", ⟨1, 1, 1⟩), ("c", ⟨1, 1, -100⟩)], [], 2, [], []⟩

/-- C6: `calculate_electricity_price` as written raises `AttributeError`
on every non-empty grid (it iterates the dict keys, not the node values) —
here on a one-consumer grid — and only the empty grid reaches the
supply-0 branch returning 150.0.  The values-iteration version realizes
the claim: 150.0 whenever total supply is 0 (regardless of demand, here
10), and the clamped formula price when supply > 0 — for delta_e values
(+100, −50) the in-range price 50·(0.5 + 50/(100 + 1e-6)), and for
(+1, −100) the clamp at 200. -/
theorem C6_electricity_price_code_bug :
    calculate_electricity_price gC6consumer = Except.error PyError.attributeError ∧
    calculate_electricity_price gC6empty = Except.ok 150 ∧
    totalSupply gC6consumer = 0 ∧
    calculate_electricity_price_values gC6consumer = 150 ∧
    calculate_electricity_price_values gC6mixed = 5000000025 / 100000001 ∧
    calculate_electricity_price_values gC6scarce = 200 := by
  refine ⟨rfl, rfl, by decide, by decide, ?_, ?_⟩ <;>
    norm_num [calculate_electricity_price_values, totalSupply, totalDemand,
      gC6mixed, gC6scarce, min_def, max_def]

/-- Model of `PowerGrid.add_node(node_json)` (lines 174–202): a missing id
returns `False` (line 178) before anything else; with an id present the
method calls `self._create_agent` (line 184), which raises `TypeError` for
every node type (header slip 4) before the node creation, the
`total_inertia += inertia` bookkeeping and the `network_dict` append — so
an id-bearing call never mutates the grid.  (The unreachable remainder
would replace any node already stored under the id while still adding the
new inertia to `total_inertia`.) -/
def add_node (g : SPowerGrid) (json : NodeJson) (_rand_inertia _rand_friction : ℚ) :
    Except PyError (Bool × SPowerGrid) :=
  match json.id with
  | none => .ok (false, g)
  | some _ => .error .typeError

/-- Model of `PowerGrid.add_connection(connection_json)` (lines 204–232): missing
`from`/`to` or an endpoint id not in `self.nodes` returns `False`;
otherwise a branch (capacity = `power`, default 100; transmission factor
default 1.0) is appended under both endpoint ids and the JSON recorded. -/
def add_connection (g : SPowerGrid) (c : ConnJson) : Bool × SPowerGrid :=
  match c.fromId, c.toId with
  | some f, some t =>
    if (dictGet? g.nodes f).isSome ∧ (dictGet? g.nodes t).isSome then
      (true,
        { g with
          branches := dictAppend (dictAppend g.branches f ⟨f, t, c.power.getD 100, c.tf.getD 1⟩)
            t ⟨f, t, c.power.getD 100, c.tf.getD 1⟩,
          net_conns := g.net_conns ++ [c] })
    else (false, g)
  | _, _ => (false, g)

/-- The source `PowerGrid` defines NO `remove_connection` method, although
`PowerGrid.remove_node` (line 246), `server.py` (line 445) and
`driver.py` (line 155) call one: every call raises `AttributeError`
(header slip 1). -/
def remove_connection (_g : SPowerGrid) (_cid : String) :
    Except PyError (Bool × SPowerGrid) :=
  .error .attributeError

/-- Model of `PowerGrid.remove_node(node_id)` (lines 234–260): an unknown id
returns `False`.  For a live node the method first calls the nonexistent
`self.remove_connection` for every connection of the node recorded in
`network_dict` — raising `AttributeError` as soon as the node has one —
and otherwise reaches `self.total_inertia -= node.inertia`, which raises
`TypeError` because the attribute `node.inertia` holds the node id string
(header slip 3).  Python mutates nothing before either raise, so the grid
is unchanged in every case. -/
def remove_node (g : SPowerGrid) (nid : String) : Except PyError (Bool × SPowerGrid) :=
  if (dictGet? g.nodes nid).isSome then
    if (g.net_conns.filter (fun c => c.fromId = some nid ∨ c.toId = some nid)).isEmpty then
      .error .typeError
    else
      .error .attributeError
  else
    .ok (false, g)

def ndA : NodeData := ⟨"a", some 1, some (1/2), 0, 0⟩

def ndB : NodeData := ⟨"b", some 2, some (1/2), 0, 0⟩

def cAB : ConnJson := ⟨"c1", some "a", some "b", some 100, none⟩

/-- A hypothetical grid state holding nodes "a" (inertia 1) and "b"
(inertia 2) and their connection `cAB` — the state `PowerGrid.__init__`
aims at for that network (agent construction aborts it in the source, see
`initGrid`).  The structural methods are functions of the grid state;
this state exercises their live-node paths. -/
def gAB : SPowerGrid :=
  { nodes := [("a", ⟨1, 1/2, 0⟩), ("b", ⟨2, 1/2, 0⟩)],
    branches := [("a", [⟨"a", "b", 100, 1⟩]), ("b", [⟨"a", "b", 100, 1⟩])],
    total_inertia := 3,
    net_nodes := [⟨some "a", some 1, some (1/2)⟩, ⟨some "b", some 2, some (1/2)⟩],
    net_conns := [cAB] }

/-- A hypothetical one-node grid state ("a", inertia 1, no connections). -/
def gA : SPowerGrid :=
  { nodes := [("a", ⟨1, 1/2, 0⟩)],
    branches := [("a", [])],
    total_inertia := 1,
    net_nodes := [⟨some "a", some 1, some (1/2)⟩],
    net_conns := [] }

/-- C8: the validation paths hold — `add_connection` with an unknown or
missing endpoint id and `remove_node` with an unknown id return `False`
without raising, and `add_node` without an id returns `False` — but the
claim's "never raises" part fails: `remove_connection` does not exist, so
calling it raises `AttributeError` for every id, `remove_node` on a node
with an incident connection raises `AttributeError` through it,
`remove_node` on a connection-free live node raises `TypeError` at
`total_inertia -= node.inertia` (the attribute holds the id string), and
`add_node` with an id present raises `TypeError` in `_create_agent`. -/
theorem C8_structural_ops_code_bug :
    add_connection gAB ⟨"c2", some "a", some "zz", none, none⟩ = (false, gAB) ∧
    add_connection gAB ⟨"c3", none, some "b", none, none⟩ = (false, gAB) ∧
    add_node gAB ⟨none, none, none⟩ (1/3) (1/3) = Except.ok (false, gAB) ∧
    add_node gAB ⟨some "c", some 1, none⟩ (1/3) (1/3) = Except.error PyError.typeError ∧
    remove_node gAB "zz" = Except.ok (false, gAB) ∧
    remove_connection gAB "c1" = Except.error PyError.attributeError ∧
    remove_node gAB "a" = Except.error PyError.attributeError ∧
    remove_node gA "a" = Except.error PyError.typeError :=
  ⟨rfl, rfl, rfl, rfl, rfl, rfl, rfl, rfl⟩

def sumInertia (d : List (String × SNode)) : ℚ := (d.map (fun p => p.2.inertia)).sum

/-- The sum of `node.inertia` over the nodes currently live in the grid's
node map — the quantity the spec's invariant compares `total_inertia`
against. -/
def nodesInertiaSum (g : SPowerGrid) : ℚ := sumInertia g.nodes

/-- C9: the inertia bookkeeping the claim describes is unreachable.
Construction with at least one node raises `TypeError` inside
`_create_agent` before any node or inertia is recorded (here for the
one-node network `[ndA]`); the only completing construction is the empty
network, where `total_inertia = 0` equals the (empty) sum of live node
inertias.  Every `add_node` call either returns `False` on a missing id,
leaving the grid unchanged, or raises `TypeError` in `_create_agent`
before the `total_inertia += inertia` bookkeeping (here on the empty grid
with id "a"), and every `remove_node` call either returns `False` on an
unknown id, unchanged, or raises before mutating — so no call ever
reaches the code whose invariant the claim asserts; in particular the
duplicate-id `add_node` the claim singles out never completes. -/
theorem C9_total_inertia_code_bug :
    initGrid [] [] = Except.ok ⟨[], [], 0, [], []⟩ ∧
    (⟨[], [], 0, [], []⟩ : SPowerGrid).total_inertia =
      nodesInertiaSum ⟨[], [], 0, [], []⟩ ∧
    initGrid [ndA] [] = Except.error PyError.typeError ∧
    add_node ⟨[], [], 0, [], []⟩ ⟨some "a", some 2, some 0⟩ 0 0 =
      Except.error PyError.typeError ∧
    (∀ (g : SPowerGrid) (json : NodeJson) (r1 r2 : ℚ),
      add_node g json r1 r2 = Except.ok (false, g) ∨
      add_node g json r1 r2 = Except.error PyError.typeError) ∧
    (∀ (g : SPowerGrid) (nid : String),
      remove_node g nid = Except.ok (false, g) ∨
      remove_node g nid = Except.error PyError.attributeError ∨
      remove_node g nid = Except.error PyError.typeError) := by
  refine ⟨rfl, rfl, rfl, rfl, ?_, ?_⟩
  · intro g json r1 r2
    obtain ⟨jid, ji, jf⟩ := json
    cases jid with
    | none => exact Or.inl rfl
    | some nid => exact Or.inr rfl
  · intro g nid
    unfold remove_node
    split_ifs
    · exact Or.inr (Or.inr rfl)
    · exact Or.inr (Or.inl rfl)
    · exact Or.inl rfl
